import Mathlib

/-!
Verification of the SWEBench Debugger orchestration core.

The definitions below are a shallow embedding of the repository's
front-end orchestration code (the tab component and the tab-manager
component).  Strings are handled as `List Char` via `String.data`;
every JS string helper used by the source (`trim`, `startsWith`,
`endsWith`, `includes`, `split`, `toLowerCase`) is reimplemented here
on `List Char` so that all definitions evaluate inside the kernel.
Asynchronous external commands (`invoke`, event emission) are modelled
as an explicit `Effect` list returned next to the updated state, and
the outcome of an awaited external call (which may throw) is passed in
as an `Except`/`Option` argument.
-/

namespace SWEDebug

/-- JS `String.prototype.trim`, on the character list of a string. -/
def trimChars (l : List Char) : List Char :=
  ((l.dropWhile Char.isWhitespace).reverse.dropWhile Char.isWhitespace).reverse

/-- JS `String.prototype.trim` as a `String → String` map. -/
def trimStr (s : String) : String :=
  String.mk (trimChars s.data)

/-- JS `String.prototype.startsWith` on character lists
(`startsWithChars l p` holds when `p` is an initial segment of `l`). -/
def startsWithChars : List Char → List Char → Bool
  | _, [] => true
  | [], _ :: _ => false
  | c :: l, p :: ps => c == p && startsWithChars l ps

/-- JS `String.prototype.endsWith` on character lists. -/
def endsWithChars (l p : List Char) : Bool :=
  startsWithChars l.reverse p.reverse

/-- Characters after the first occurrence of the pattern `p` inside `l`
(`none` when `p` does not occur).  This models the combination of the
source's `includes(p)` test with its `match(/p(.+)/)` capture. -/
def afterSub : List Char → List Char → Option (List Char)
  | [], _ => none
  | c :: l, p =>
    if startsWithChars (c :: l) p then some ((c :: l).drop p.length)
    else afterSub l p

/-- ASCII lower-casing of one character, as JS `toLowerCase` acts on the
characters appearing in this code path. -/
def toLowerChar (c : Char) : Char :=
  if 'A' ≤ c && c ≤ 'Z' then Char.ofNat (c.toNat + 32) else c

/-- JS `String.prototype.toLowerCase` on character lists. -/
def toLowerChars (l : List Char) : List Char :=
  l.map toLowerChar

/-- Membership in the regex class `[a-z0-9]`. -/
def isLowerAlnum (c : Char) : Bool :=
  ('a' ≤ c && c ≤ 'z') || ('0' ≤ c && c ≤ '9')

/-- Membership in the separator part of the regex class `[a-z0-9._-]`. -/
def isSepChar (c : Char) : Bool :=
  c == '.' || c == '_' || c == '-'

/-- Membership in the regex class `[a-z0-9._-]`. -/
def isNameChar (c : Char) : Bool :=
  isLowerAlnum c || isSepChar c

/-- Whether the last character of `l` is in `[a-z0-9]`, with answer `acc`
for the empty list (recursive form used while scanning). -/
def lastAlnumD (acc : Bool) : List Char → Bool
  | [] => acc
  | c :: r => lastAlnumD (isLowerAlnum c) r

/-- Meaning of the regex fragment `[a-z0-9]([a-z0-9._-]*[a-z0-9])?` on a
whole chunk: non-empty, first and last characters in `[a-z0-9]`, every
character in `[a-z0-9._-]`. -/
def bodyOk : List Char → Bool
  | [] => false
  | c :: r => isLowerAlnum c && (c :: r).all isNameChar && lastAlnumD (isLowerAlnum c) r

/-- Source `validateDockerImageName` (Tab component): false when the
trimmed input is empty or the length exceeds 128, otherwise the test of
`/^[a-z0-9]([a-z0-9._-]*[a-z0-9])?(\:[a-z0-9]([a-z0-9._-]*[a-z0-9])?)?$/`,
evaluated by splitting at `:` (neither chunk may contain `:`). -/
def validateDockerImageName (name : String) : Bool :=
  let cs := name.data
  if (trimChars cs).isEmpty then false
  else if cs.length > 128 then false
  else
    match cs.splitOn ':' with
    | [body] => bodyOk body
    | [body, tag] => bodyOk body && bodyOk tag
    | _ => false

/-- Scanner for segments of `[a-z0-9]` separated by runs of one or more
separator characters; `acc` records whether the scan currently stands
right after an alphanumeric character (accepting position). -/
def segTail (acc : Bool) : List Char → Bool
  | [] => acc
  | c :: r =>
    if isLowerAlnum c then segTail true r
    else if isSepChar c then segTail false r
    else false

/-- A chunk made of lowercase alphanumeric segments separated by runs of
one or more `.`, `_`, `-` characters (no leading or trailing separator). -/
def multiSepSegs : List Char → Bool
  | [] => false
  | c :: r => isLowerAlnum c && segTail true r

/-- Scanner for segments of `[a-z0-9]` separated by single separator
characters; `afterSep` records whether the previous character was a
separator (in which case another separator is refused). -/
def segTailSingle (afterSep : Bool) : List Char → Bool
  | [] => !afterSep
  | c :: r =>
    if isLowerAlnum c then segTailSingle false r
    else if isSepChar c then
      if afterSep then false else segTailSingle true r
    else false

/-- A chunk made of lowercase alphanumeric segments separated by single
`.`, `_`, `-` characters, as the specification words it. -/
def singleSepSegs : List Char → Bool
  | [] => false
  | c :: r => isLowerAlnum c && segTailSingle false r

/-- Image-reference validity exactly as the specification words it:
non-empty after trimming, at most 128 characters, lowercase
alphanumeric segments separated by single separators, optionally
followed by `:` and a similarly-constrained tag. -/
def claimedImageRefOk (s : String) : Bool :=
  let cs := s.data
  if (trimChars cs).isEmpty then false
  else if cs.length > 128 then false
  else
    match cs.splitOn ':' with
    | [body] => singleSepSegs body
    | [body, tag] => singleSepSegs body && singleSepSegs tag
    | _ => false

/-- Image-reference validity with the separator rule amended to allow
runs of separators, which is what the source regex accepts. -/
def amendedImageRefOk (s : String) : Bool :=
  let cs := s.data
  if (trimChars cs).isEmpty then false
  else if cs.length > 128 then false
  else
    match cs.splitOn ':' with
    | [body] => multiSepSegs body
    | [body, tag] => multiSepSegs body && multiSepSegs tag
    | _ => false

/-- Source `generateImageNameFromGitHubUrl` (Tab component).  The trimmed
URL first loses a trailing `.git`; then the explicit prefixes
`https://github.com/`, `http://github.com/`, `git@github.com:`,
`https://github.dev/`, `http://github.dev/` are stripped, and otherwise
everything after the first occurrence of `github.com/` is taken (the
source's `includes` branch with `match(/github\.com\/(.+)/)`; `none`,
or an occurrence with nothing after it, leaves the path empty, which
the final arity check turns into `""`).  With at least two
`/`-separated path parts the result is `<owner>__<repo>` lower-cased,
with everything from the first `?` or `#` dropped from the repo part. -/
def generateImageNameFromGitHubUrl (url : String) : String :=
  let t := trimChars url.data
  if t.isEmpty then ""
  else
    let cleanUrl := if endsWithChars t ".git".data then t.take (t.length - 4) else t
    let repoPath : List Char :=
      if startsWithChars cleanUrl "https://github.com/".data then cleanUrl.drop 19
      else if startsWithChars cleanUrl "http://github.com/".data then cleanUrl.drop 18
      else if startsWithChars cleanUrl "git@github.com:".data then cleanUrl.drop 15
      else if startsWithChars cleanUrl "https://github.dev/".data then cleanUrl.drop 19
      else if startsWithChars cleanUrl "http://github.dev/".data then cleanUrl.drop 18
      else
        match afterSub cleanUrl "github.com/".data with
        | some rest => rest
        | none => []
    match repoPath.splitOn '/' with
    | user :: repo :: _ =>
      let userL := toLowerChars user
      let repoL := toLowerChars repo
      let cleanRepo := (repoL.takeWhile (fun c => c != '?')).takeWhile (fun c => c != '#')
      String.mk (userL ++ "__".data ++ cleanRepo)
    | _ => ""

/-- Recognition condition of `generateImageNameFromGitHubUrl`: the
trimmed, `.git`-stripped URL starts with one of the five explicit
prefixes or contains `github.com/` somewhere.  When this is false the
source returns `""` before looking at path parts. -/
def recognizedGitHubShape (url : String) : Bool :=
  let t := trimChars url.data
  if t.isEmpty then false
  else
    let cleanUrl := if endsWithChars t ".git".data then t.take (t.length - 4) else t
    startsWithChars cleanUrl "https://github.com/".data ||
    startsWithChars cleanUrl "http://github.com/".data ||
    startsWithChars cleanUrl "git@github.com:".data ||
    startsWithChars cleanUrl "https://github.dev/".data ||
    startsWithChars cleanUrl "http://github.dev/".data ||
    (afterSub cleanUrl "github.com/".data).isSome

/-- Per-tab state, field for field the Tab component's `TabState`. -/
structure TabState where
  title : String
  githubRepoUrl : String
  baseCommit : String
  headCommit : String
  jsonSpec : String
  imageName : String
  testFiles : String
  isDockerfileExpanded : Bool
  generatedDockerfile : String
  validationError : Option String
  isValidJson : Bool
  useHeadCommit : Bool
  isBuilding : Bool
  buildLogs : List String
  isValidImageName : Bool
  shouldAutoScroll : Bool
  isImageExists : Bool
  isCheckingImage : Bool
  isTesting : Bool
  testLogs : List String
  shouldAutoScrollTest : Bool
  dockerPath : String
  isDockerPathExpanded : Bool
deriving DecidableEq

/-- Source `defaultTabState`. -/
def defaultTabState : TabState where
  title := "Untitled"
  githubRepoUrl := ""
  baseCommit := ""
  headCommit := ""
  jsonSpec := "\x7b\n  \"test_cmd\": \"npm test\",\n  \"log_parser_name\": \"jest\"\n\x7d"
  imageName := ""
  testFiles := ""
  isDockerfileExpanded := false
  generatedDockerfile := ""
  validationError := none
  isValidJson := true
  useHeadCommit := false
  isBuilding := false
  buildLogs := []
  isValidImageName := false
  shouldAutoScroll := true
  isImageExists := false
  isCheckingImage := false
  isTesting := false
  testLogs := []
  shouldAutoScrollTest := true
  dockerPath := ""
  isDockerPathExpanded := false

/-- Actions of the Tab component's reducer.  `UPDATE_MULTIPLE` with a
record of fields is modelled at call sites as the sequence of the
corresponding single-field actions (the same atomic merge). -/
inductive TabAction where
  | setTitle (p : String)
  | setGithubRepoUrl (p : String)
  | setBaseCommit (p : String)
  | setHeadCommit (p : String)
  | setJsonSpec (p : String)
  | setImageName (p : String)
  | setTestFiles (p : String)
  | setDockerfileExpanded (p : Bool)
  | setGeneratedDockerfile (p : String)
  | setValidationError (p : Option String)
  | setIsValidJson (p : Bool)
  | setUseHeadCommit (p : Bool)
  | setIsBuilding (p : Bool)
  | addBuildLog (p : String)
  | clearBuildLogs
  | setIsValidImageName (p : Bool)
  | setShouldAutoScroll (p : Bool)
  | setIsImageExists (p : Bool)
  | setIsCheckingImage (p : Bool)
  | setIsTesting (p : Bool)
  | addTestLog (p : String)
  | clearTestLogs
  | setShouldAutoScrollTest (p : Bool)
  | setDockerPath (p : String)
  | setDockerPathExpanded (p : Bool)
deriving DecidableEq

/-- Source `tabReducer`. -/
def tabReducer (state : TabState) (action : TabAction) : TabState :=
  match action with
  | .setTitle p => { state with title := p }
  | .setGithubRepoUrl p => { state with githubRepoUrl := p }
  | .setBaseCommit p => { state with baseCommit := p }
  | .setHeadCommit p => { state with headCommit := p }
  | .setJsonSpec p => { state with jsonSpec := p }
  | .setImageName p => { state with imageName := p }
  | .setTestFiles p => { state with testFiles := p }
  | .setDockerfileExpanded p => { state with isDockerfileExpanded := p }
  | .setGeneratedDockerfile p => { state with generatedDockerfile := p }
  | .setValidationError p => { state with validationError := p }
  | .setIsValidJson p => { state with isValidJson := p }
  | .setUseHeadCommit p => { state with useHeadCommit := p }
  | .setIsBuilding p => { state with isBuilding := p }
  | .addBuildLog p => { state with buildLogs := state.buildLogs ++ [p] }
  | .clearBuildLogs => { state with buildLogs := [] }
  | .setIsValidImageName p => { state with isValidImageName := p }
  | .setShouldAutoScroll p => { state with shouldAutoScroll := p }
  | .setIsImageExists p => { state with isImageExists := p }
  | .setIsCheckingImage p => { state with isCheckingImage := p }
  | .setIsTesting p => { state with isTesting := p }
  | .addTestLog p => { state with testLogs := state.testLogs ++ [p] }
  | .clearTestLogs => { state with testLogs := [] }
  | .setShouldAutoScrollTest p => { state with shouldAutoScrollTest := p }
  | .setDockerPath p => { state with dockerPath := p }
  | .setDockerPathExpanded p => { state with isDockerPathExpanded := p }

/-- Dispatch a sequence of reducer actions. -/
def dispatchAll (s : TabState) (as : List TabAction) : TabState :=
  as.foldl tabReducer s

/-- External commands and calls issued by the component, in order. -/
inductive Effect where
  | buildDockerImage (dockerfileContent imageName githubRepoUrl commit dockerPath : String)
  | stopDockerBuild
  | runDockerTest (imageName testCmd testFilePaths dockerPath : String)
  | stopDockerTest
  | checkDockerImageExists (imageName dockerPath : String)
  | recheckImage (imageName : String)
  | loadDockerPath
  | saveDockerPath (path : String)
deriving DecidableEq

/-- Source `handleBuild` (Tab component).  `startResult` is the outcome
of the awaited `invoke("build_docker_image", …)`: `.ok` when the call
is accepted, `.error msg` when it throws synchronously.  The command is
in the effect list in either case, since the throw happens at the
callee after the call is issued. -/
def handleBuild (dockerPath : String) (s : TabState) (startResult : Except String Unit) :
    TabState × List Effect :=
  if !s.isValidImageName || s.isBuilding || !s.isValidJson || s.validationError.isSome then
    (s, [])
  else
    let s1 := dispatchAll s
      [.setIsBuilding true, .setShouldAutoScroll true, .clearBuildLogs, .clearTestLogs]
    let commitToUse := if s.useHeadCommit then s.headCommit else s.baseCommit
    let cmd := Effect.buildDockerImage s.generatedDockerfile (trimStr s.imageName)
      (trimStr s.githubRepoUrl) (trimStr commitToUse) (trimStr dockerPath)
    match startResult with
    | .ok _ => (s1, [cmd])
    | .error e =>
      (dispatchAll s1 [.setIsBuilding false, .addBuildLog ("ERROR: " ++ e)], [cmd])

/-- Source `handleStopBuild`: the stop command is issued; only when it
resolves without throwing is `isBuilding` forced to `false`.  A throw is
only logged to the console, leaving the tab state untouched. -/
def handleStopBuild (s : TabState) (stopResult : Except String Unit) :
    TabState × List Effect :=
  match stopResult with
  | .ok _ => (tabReducer s (.setIsBuilding false), [Effect.stopDockerBuild])
  | .error _ => (s, [Effect.stopDockerBuild])

/-- Source `handleTest`.  `parsedTestCmd` is the outcome of the external
`JSON.parse(state.jsonSpec)` followed by `parsedSpec.test_cmd || ""`:
`none` when the parse throws, `some cmd` otherwise (a missing or falsy
field gives `some ""`).  `startResult` is as in `handleBuild`. -/
def handleTest (dockerPath : String) (s : TabState) (parsedTestCmd : Option String)
    (startResult : Except String Unit) : TabState × List Effect :=
  if !s.isImageExists || s.isTesting then (s, [])
  else
    match parsedTestCmd with
    | none => (s, [])
    | some testCmd =>
      if (trimChars testCmd.data).isEmpty then (s, [])
      else
        let s1 := dispatchAll s
          [.setIsTesting true, .setShouldAutoScrollTest true, .clearTestLogs]
        let cmd := Effect.runDockerTest (trimStr s.imageName) (trimStr testCmd)
          (trimStr s.testFiles) (trimStr dockerPath)
        match startResult with
        | .ok _ => (s1, [cmd])
        | .error e =>
          (dispatchAll s1 [.setIsTesting false, .addTestLog ("ERROR: " ++ e)], [cmd])

/-- Source `handleStopTest`, mirroring `handleStopBuild`. -/
def handleStopTest (s : TabState) (stopResult : Except String Unit) :
    TabState × List Effect :=
  match stopResult with
  | .ok _ => (tabReducer s (.setIsTesting false), [Effect.stopDockerTest])
  | .error _ => (s, [Effect.stopDockerTest])

/-- Synchronous part of source `checkImageExists`: blank or invalid
names force `isImageExists := false` without any external query;
otherwise the checking flag is raised and the existence query issued. -/
def checkImageExists (dockerPath : String) (s : TabState) (imageNameToCheck : String) :
    TabState × List Effect :=
  if (trimChars imageNameToCheck.data).isEmpty || !validateDockerImageName imageNameToCheck then
    (tabReducer s (.setIsImageExists false), [])
  else
    (tabReducer s (.setIsCheckingImage true),
      [Effect.checkDockerImageExists (trimStr imageNameToCheck) (trimStr dockerPath)])

/-- Payload of a `build_complete` / `test_complete` event. -/
structure CompleteEvent where
  success : Bool
  error : Option String
deriving DecidableEq

/-- Source `build_complete` listener (Tab component): `isBuilding` is
forced to `false`; on `success` the `checkImageExists(state.imageName)`
re-check is invoked (recorded here as `Effect.recheckImage` with its
argument — the listener is re-subscribed on every `state.imageName`
change, so the captured name is the tab's current one); on failure with
a truthy (non-empty) error message an `ERROR:` line is appended. -/
def buildCompleteHandler (s : TabState) (ev : CompleteEvent) : TabState × List Effect :=
  let s1 := tabReducer s (.setIsBuilding false)
  if ev.success then
    (s1, [Effect.recheckImage s.imageName])
  else
    match ev.error with
    | some e => if e.data.isEmpty then (s1, []) else (tabReducer s1 (.addBuildLog ("ERROR: " ++ e)), [])
    | none => (s1, [])

/-- Source `test_complete` listener: as the build one, but with no
re-check on success. -/
def testCompleteHandler (s : TabState) (ev : CompleteEvent) : TabState × List Effect :=
  let s1 := tabReducer s (.setIsTesting false)
  if ev.success then
    (s1, [])
  else
    match ev.error with
    | some e => if e.data.isEmpty then (s1, []) else (tabReducer s1 (.addTestLog ("ERROR: " ++ e)), [])
    | none => (s1, [])

/-- Source reaction to a `githubRepoUrl` change: when the derived image
name is non-empty it overwrites the image-name field. -/
def autoNameEffect (s : TabState) : TabState :=
  let generatedImageName := generateImageNameFromGitHubUrl s.githubRepoUrl
  if generatedImageName.data.isEmpty then s
  else tabReducer s (.setImageName generatedImageName)

/-- Source tab-title reaction `onTabNameChange(state.imageName || "Untitled")`:
the displayed title as a function of the image name alone. -/
def tabTitle (imageName : String) : String :=
  if imageName.data.isEmpty then "Untitled" else imageName

/-- Tab title exactly as the specification words it: the image name when
non-empty, else the name derived from the repository URL when that
derivation is non-empty, else the placeholder. -/
def claimedTabTitle (imageName githubRepoUrl : String) : String :=
  if !imageName.data.isEmpty then imageName
  else if !(generateImageNameFromGitHubUrl githubRepoUrl).data.isEmpty then
    generateImageNameFromGitHubUrl githubRepoUrl
  else "Untitled"

/-- Entry of the tab manager's `tabs` array. -/
structure TabEntry where
  id : String
  title : String
deriving DecidableEq

/-- Tab-manager state: ordered tab list plus active tab id. -/
structure TabCollectionState where
  tabs : List TabEntry
  activeTabId : String
deriving DecidableEq

/-- Source `closeTab` (tab-manager component).  With one tab left the
call returns immediately.  Otherwise the tab is filtered out and, when
it was the active one, `tabs[currentIndex - 1] || tabs[currentIndex + 1]`
over the pre-removal array picks the new active tab (JS `tabs[-1]` is
`undefined`, and with `findIndex` returning `-1` the fallback
expression evaluates to `tabs[0]`); an `undefined` candidate leaves the
active id untouched. -/
def closeTab (m : TabCollectionState) (tabId : String) : TabCollectionState :=
  if m.tabs.length ≤ 1 then m
  else
    let newTabs := m.tabs.filter (fun t => t.id != tabId)
    if m.activeTabId = tabId then
      let cand : Option TabEntry :=
        match m.tabs.findIdx? (fun t => t.id == tabId) with
        | some n => (if n = 0 then none else m.tabs[n - 1]?).orElse (fun _ => m.tabs[n + 1]?)
        | none => m.tabs[0]?
      match cand with
      | some t => { tabs := newTabs, activeTabId := t.id }
      | none => { tabs := newTabs, activeTabId := m.activeTabId }
    else
      { tabs := newTabs, activeTabId := m.activeTabId }

/-- The tab manager's docker-path value, `none` standing for the JS
`undefined` that the save guard compares against.  `useState("")`
initialises it to `some ""`. -/
def initialDockerPathValue : Option String := some ""

/-- Effects of the source save reaction for one `dockerPath` value: the
guard `dockerPath !== undefined` admits every string, so a save of the
trimmed value is issued whenever the reaction runs. -/
def saveDockerPathEffects (dockerPath : Option String) : List Effect :=
  match dockerPath with
  | some p => [Effect.saveDockerPath (trimStr p)]
  | none => []

/-- Effects the tab manager issues on mount, before any asynchronous
result arrives: the one-time `load_docker_path` read and the save
reaction run against the initial `dockerPath` value. -/
def mountDockerPathEffects : List Effect :=
  Effect.loadDockerPath :: saveDockerPathEffects initialDockerPathValue

theorem segTail_eq (l : List Char) :
    ∀ acc, segTail acc l = (l.all isNameChar && lastAlnumD acc l) := by
  induction l with
  | nil => intro acc; simp [segTail, lastAlnumD]
  | cons c r ih =>
    intro acc
    cases h1 : isLowerAlnum c with
    | true => simp [segTail, lastAlnumD, isNameChar, h1, ih]
    | false =>
      cases h2 : isSepChar c with
      | true => simp [segTail, lastAlnumD, isNameChar, h1, h2, ih]
      | false => simp [segTail, lastAlnumD, isNameChar, h1, h2]

theorem bodyOk_eq_multiSepSegs (l : List Char) : bodyOk l = multiSepSegs l := by
  cases l with
  | nil => rfl
  | cons c r =>
    cases h1 : isLowerAlnum c with
    | true =>
      simp [bodyOk, multiSepSegs, segTail_eq, isNameChar, h1, Bool.and_assoc]
    | false => simp [bodyOk, multiSepSegs, h1]

theorem validate_eq_amended (s : String) :
    validateDockerImageName s = amendedImageRefOk s := by
  unfold validateDockerImageName amendedImageRefOk
  rcases h : s.data.splitOn ':' with _ | ⟨b, _ | ⟨t, _ | ⟨u, rest⟩⟩⟩ <;>
    simp [h, bodyOk_eq_multiSepSegs]

/-- Claim C4, counterexample: the name `a..b` has a segment boundary made
of two consecutive separators, so the claimed single-separator pattern
rejects it, yet `validateDockerImageName` accepts it (the regex's
middle class `[a-z0-9._-]*` admits separator runs). -/
theorem validateName_counterexample :
    validateDockerImageName "a..b" = true ∧ claimedImageRefOk "a..b" = false := by
  constructor <;> decide

set_option maxRecDepth 10000 in
/-- Claim C4, amended: `validateDockerImageName` returns true iff the
input is non-empty after trimming, at most 128 characters, and consists
of lowercase alphanumeric segments separated by runs of one or more
`.`, `_`, `-` characters (no leading or trailing separator), optionally
followed by `:` and a similarly-constrained tag; `My/Image` and a
129-character all-lowercase name are rejected, `app:v1.0` is accepted. -/
theorem validateName_amended_spec :
    (∀ s : String, validateDockerImageName s = amendedImageRefOk s) ∧
    validateDockerImageName "My/Image" = false ∧
    validateDockerImageName (String.mk (List.replicate 129 'a')) = false ∧
    validateDockerImageName "app:v1.0" = true :=
  ⟨validate_eq_amended, by decide, by decide, by decide⟩

theorem gen_of_unrecognized (url : String) (h : recognizedGitHubShape url = false) :
    generateImageNameFromGitHubUrl url = "" := by
  unfold recognizedGitHubShape at h
  unfold generateImageNameFromGitHubUrl
  cases hte : (trimChars url.data).isEmpty with
  | true => simp [hte]
  | false =>
    simp only [hte, Bool.false_eq_true, if_false, Bool.or_eq_false_iff] at h
    obtain ⟨⟨⟨⟨⟨h1, h2⟩, h3⟩, h4⟩, h5⟩, h6⟩ := h
    have h6' : afterSub (if endsWithChars (trimChars url.data) ".git".data then
        (trimChars url.data).take ((trimChars url.data).length - 4)
      else trimChars url.data) "github.com/".data = none := by
      rcases hs : afterSub _ "github.com/".data with _ | rest
      · rfl
      · rw [hs] at h6; simp at h6
    simp [hte, h1, h2, h3, h4, h5, h6']

/-- Claim C5, counterexample: `www.github.com/Foo/Bar` matches none of
the three URL shapes the claim lists (and carries no `.git` suffix),
yet `generateImageNameFromGitHubUrl` maps it to `foo__bar` instead of
the claimed empty string, through the source's fallback branch for any
URL containing `github.com/`. -/
theorem gen_counterexample :
    generateImageNameFromGitHubUrl "www.github.com/Foo/Bar" = "foo__bar" ∧
    startsWithChars (trimChars "www.github.com/Foo/Bar".data) "https://github.com/".data = false ∧
    startsWithChars (trimChars "www.github.com/Foo/Bar".data) "http://github.com/".data = false ∧
    startsWithChars (trimChars "www.github.com/Foo/Bar".data) "git@github.com:".data = false ∧
    ("foo__bar" : String) ≠ "" := by
  refine ⟨by decide, by decide, by decide, by decide, by decide⟩

/-- Claim C5, amended: besides the three listed shapes the source also
recognizes `https?://github.dev/<owner>/<repo>` and, as a fallback, any
URL containing `github.com/` anywhere (path taken after its first
occurrence); on recognized inputs it strips a trailing `.git`, strips
query/fragment suffixes from the repo segment, lower-cases both
segments and returns `<owner>__<repo>`; every URL matching no
recognized shape yields the empty string. -/
theorem gen_amended_spec :
    (∀ url : String, recognizedGitHubShape url = false →
      generateImageNameFromGitHubUrl url = "") ∧
    generateImageNameFromGitHubUrl "https://github.com/Foo/Bar.git" = "foo__bar" ∧
    generateImageNameFromGitHubUrl "git@github.com:foo/bar" = "foo__bar" ∧
    generateImageNameFromGitHubUrl "https://github.dev/Foo/Bar" = "foo__bar" ∧
    generateImageNameFromGitHubUrl "www.github.com/Foo/Bar" = "foo__bar" ∧
    generateImageNameFromGitHubUrl "https://github.com/Foo/Bar?tab=readme" = "foo__bar" ∧
    generateImageNameFromGitHubUrl "https://gitlab.com/foo/bar" = "" :=
  ⟨gen_of_unrecognized, by decide, by decide, by decide, by decide, by decide, by decide⟩

/-- Witness for claim C5's amended theorem at a concrete unrecognized URL. -/
theorem gen_amended_spec_witness :
    recognizedGitHubShape "https://gitlab.com/acme/widget" = false ∧
    generateImageNameFromGitHubUrl "https://gitlab.com/acme/widget" = "" :=
  ⟨by decide, gen_amended_spec.1 "https://gitlab.com/acme/widget" (by decide)⟩

/-- Claim C9, counterexample: with an emptied image-name field and a
repository URL whose derivation is `foo__bar`, the source title is the
placeholder `Untitled`, not the claimed URL-derived name — the title
reaction reads the image name only. -/
theorem tabTitle_counterexample :
    tabTitle "" = "Untitled" ∧
    claimedTabTitle "" "https://github.com/foo/bar" = "foo__bar" ∧
    tabTitle "" ≠ claimedTabTitle "" "https://github.com/foo/bar" := by
  refine ⟨by decide, by decide, by decide⟩

/-- Claim C9, amended: the displayed tab title is a pure function of the
image name alone — the image name when non-empty, else the placeholder
`Untitled`; the repository URL influences the title only through the
auto-fill reaction, which overwrites the image name whenever the URL
derivation is non-empty, so right after that reaction the title is the
derived name when one exists and the prior image name's title otherwise. -/
theorem tabTitle_amended_spec :
    (∀ s : TabState, tabTitle (autoNameEffect s).imageName =
      (if (generateImageNameFromGitHubUrl s.githubRepoUrl).data.isEmpty then
        tabTitle s.imageName
      else generateImageNameFromGitHubUrl s.githubRepoUrl)) ∧
    (∀ imageName : String,
      tabTitle imageName = if imageName.data.isEmpty then "Untitled" else imageName) := by
  constructor
  · intro s
    unfold autoNameEffect
    cases h : (generateImageNameFromGitHubUrl s.githubRepoUrl).data.isEmpty with
    | true => simp [h]
    | false => simp [h, tabTitle, tabReducer]
  · intro imageName; rfl

/-- Claim C1: starting a build is a no-op (no command issued, state — and
so the in-progress flag — unchanged) unless the image name is valid, no
build is in progress, the JSON is valid and no validation error is
pending; when the guard passes, both log sequences are emptied and
build auto-scroll is set to true in the state standing when the single
start command is issued. -/
theorem handleBuild_spec (dp : String) (s : TabState) (r : Except String Unit) :
    ((s.isValidImageName = false ∨ s.isBuilding = true ∨ s.isValidJson = false ∨
        s.validationError.isSome = true) → handleBuild dp s r = (s, [])) ∧
    (s.isValidImageName = true → s.isBuilding = false → s.isValidJson = true →
      s.validationError = none →
      (handleBuild dp s r).snd =
        [Effect.buildDockerImage s.generatedDockerfile (trimStr s.imageName)
          (trimStr s.githubRepoUrl)
          (trimStr (if s.useHeadCommit then s.headCommit else s.baseCommit)) (trimStr dp)] ∧
      (handleBuild dp s (.ok ())).fst =
        { s with isBuilding := true, shouldAutoScroll := true,
                 buildLogs := [], testLogs := [] }) := by
  constructor
  · rintro (h | h | h | h) <;> simp [handleBuild, h]
  · intro h1 h2 h3 h4
    refine ⟨?_, ?_⟩
    · cases r <;> simp [handleBuild, h1, h2, h3, h4, dispatchAll, tabReducer]
    · simp [handleBuild, h1, h2, h3, h4, dispatchAll, tabReducer]

/-- Witness for claim C1 at concrete states: a default tab (invalid image
name) is left untouched with no effect, and a guard-passing tab issues
the one start command. -/
theorem handleBuild_spec_witness :
    handleBuild "" defaultTabState (.ok ()) = (defaultTabState, []) ∧
    (handleBuild "" { defaultTabState with isValidImageName := true, imageName := "img" }
        (.ok ())).snd = [Effect.buildDockerImage "" "img" "" "" ""] := by
  constructor
  · exact (handleBuild_spec "" defaultTabState (.ok ())).1 (Or.inl rfl)
  · exact (((handleBuild_spec ""
      { defaultTabState with isValidImageName := true, imageName := "img" }
      (.ok ())).2 rfl rfl rfl rfl).1).trans (by decide)

/-- Claim C8: when the start command for a build or test session throws
synchronously, the corresponding in-progress flag is rolled back to
false and the corresponding (session-start-cleared) log holds exactly
the one line `ERROR: <message>`; the handler returns normally, so
nothing escalates. -/
theorem launchFailure_spec (dp : String) (s : TabState) (e : String) :
    (s.isValidImageName = true → s.isBuilding = false → s.isValidJson = true →
      s.validationError = none →
      (handleBuild dp s (.error e)).fst.isBuilding = false ∧
      (handleBuild dp s (.error e)).fst.buildLogs = ["ERROR: " ++ e]) ∧
    (∀ testCmd : String, s.isImageExists = true → s.isTesting = false →
      (trimChars testCmd.data).isEmpty = false →
      (handleTest dp s (some testCmd) (.error e)).fst.isTesting = false ∧
      (handleTest dp s (some testCmd) (.error e)).fst.testLogs = ["ERROR: " ++ e]) := by
  constructor
  · intro h1 h2 h3 h4
    constructor <;> simp [handleBuild, h1, h2, h3, h4, dispatchAll, tabReducer]
  · intro testCmd h1 h2 h3
    constructor <;> simp [handleTest, h1, h2, h3, dispatchAll, tabReducer]

/-- Witness for claim C8 at concrete states with a throwing start call. -/
theorem launchFailure_spec_witness :
    (handleBuild "" { defaultTabState with isValidImageName := true }
        (.error "spawn failed")).fst.buildLogs = ["ERROR: spawn failed"] ∧
    (handleTest "" { defaultTabState with isImageExists := true } (some "npm test")
        (.error "spawn failed")).fst.testLogs = ["ERROR: spawn failed"] := by
  constructor
  · exact ((launchFailure_spec "" { defaultTabState with isValidImageName := true }
      "spawn failed").1 rfl rfl rfl rfl).2
  · exact ((launchFailure_spec "" { defaultTabState with isImageExists := true }
      "spawn failed").2 "npm test" rfl rfl (by decide)).2

/-- Claim C10: a throwing stop command leaves the tab state exactly as it
was (in-progress flag keeps its prior value, no log line appended),
while a successful stop forces the corresponding flag to false. -/
theorem stop_spec (s : TabState) (e : String) :
    (handleStopBuild s (.error e)).fst = s ∧
    (handleStopTest s (.error e)).fst = s ∧
    (handleStopBuild s (.ok ())).fst = { s with isBuilding := false } ∧
    (handleStopTest s (.ok ())).fst = { s with isTesting := false } :=
  ⟨rfl, rfl, rfl, rfl⟩

/-- Claim C2, counterexample: with the build session already Idle
(`isBuilding = false`, as after a stop) and an empty build log, a
failure completion event carrying an error message still appends an
`ERROR:` line — the listener guards the append only on the payload, not
on the session state. -/
theorem buildComplete_counterexample :
    defaultTabState.isBuilding = false ∧
    defaultTabState.buildLogs = [] ∧
    (buildCompleteHandler defaultTabState ⟨false, some "build cancelled"⟩).fst.buildLogs =
      ["ERROR: build cancelled"] := by
  refine ⟨rfl, rfl, by decide⟩

/-- Claim C2, amended: handling a completion event never sets the
in-progress flag to true (it always forces `isBuilding` to false, a
no-op when already Idle); a success completion appends no log line in
any state, but a failure completion carrying a non-empty error message
appends one `ERROR:` line even when the session is already Idle. -/
theorem buildComplete_amended_spec (s : TabState) (ev : CompleteEvent) :
    (buildCompleteHandler s ev).fst.isBuilding = false ∧
    (ev.success = true → (buildCompleteHandler s ev).fst.buildLogs = s.buildLogs) ∧
    (∀ e : String, ev.success = false → ev.error = some e → e.data.isEmpty = false →
      (buildCompleteHandler s ev).fst.buildLogs = s.buildLogs ++ ["ERROR: " ++ e]) := by
  obtain ⟨suc, err⟩ := ev
  refine ⟨?_, ?_, ?_⟩
  · cases suc with
    | true => simp [buildCompleteHandler, tabReducer]
    | false =>
      cases err with
      | none => simp [buildCompleteHandler, tabReducer]
      | some e =>
        cases h : e.data.isEmpty <;> simp [buildCompleteHandler, tabReducer, h]
  · intro hs; subst hs; simp [buildCompleteHandler, tabReducer]
  · intro e hs he hne
    subst hs
    cases he
    simp [buildCompleteHandler, tabReducer, hne]

/-- Witness for claim C2's amended theorem at concrete states and events. -/
theorem buildComplete_amended_spec_witness :
    (buildCompleteHandler defaultTabState ⟨true, none⟩).fst.isBuilding = false ∧
    (buildCompleteHandler defaultTabState ⟨true, none⟩).fst.buildLogs =
      defaultTabState.buildLogs ∧
    (buildCompleteHandler defaultTabState ⟨false, some "x"⟩).fst.buildLogs =
      defaultTabState.buildLogs ++ ["ERROR: x"] := by
  refine ⟨(buildComplete_amended_spec defaultTabState ⟨true, none⟩).1,
    (buildComplete_amended_spec defaultTabState ⟨true, none⟩).2.1 rfl,
    (buildComplete_amended_spec defaultTabState ⟨false, some "x"⟩).2.2 "x" rfl rfl (by decide)⟩

/-- Claim C3: a build-completion event with `success = true` handled
while `isBuilding = true` forces `isBuilding` to false and triggers
exactly one image-existence re-check, whose argument is the tab's
current image name (the listener is re-subscribed whenever the image
name changes, so the captured name is current). -/
theorem buildComplete_success_spec (s : TabState) (ev : CompleteEvent)
    (_hb : s.isBuilding = true) (hs : ev.success = true) :
    (buildCompleteHandler s ev).fst.isBuilding = false ∧
    (buildCompleteHandler s ev).snd = [Effect.recheckImage s.imageName] := by
  constructor <;> simp [buildCompleteHandler, tabReducer, hs]

/-- Witness for claim C3 at a concrete building tab. -/
theorem buildComplete_success_spec_witness :
    (buildCompleteHandler { defaultTabState with isBuilding := true, imageName := "myimg" }
        ⟨true, none⟩).fst.isBuilding = false ∧
    (buildCompleteHandler { defaultTabState with isBuilding := true, imageName := "myimg" }
        ⟨true, none⟩).snd = [Effect.recheckImage "myimg"] :=
  buildComplete_success_spec
    { defaultTabState with isBuilding := true, imageName := "myimg" } ⟨true, none⟩ rfl rfl

theorem filter_length_ge_of_nodup (l : List TabEntry) (x : String)
    (hnd : (l.map TabEntry.id).Nodup) :
    l.length - 1 ≤ (l.filter (fun t => t.id != x)).length := by
  induction l with
  | nil => simp
  | cons t rest ih =>
    have hnd' : (rest.map TabEntry.id).Nodup := (List.nodup_cons.mp hnd).2
    have hnotin : t.id ∉ rest.map TabEntry.id := (List.nodup_cons.mp hnd).1
    by_cases ht : t.id = x
    · have hall : rest.filter (fun u => u.id != x) = rest := by
        apply List.filter_eq_self.mpr
        intro u hu
        have hmem : u.id ∈ rest.map TabEntry.id := List.mem_map_of_mem _ hu
        have : u.id ≠ x := by
          intro hux
          apply hnotin
          rw [ht, ← hux]
          exact hmem
        simpa [bne] using this
      simp [List.filter_cons, ht, hall]
    · have hkeep : (t.id != x) = true := by simpa [bne] using ht
      have := ih hnd'
      simp only [List.filter_cons, hkeep, if_true, List.length_cons]
      omega

theorem closeTab_tabs_eq (m : TabCollectionState) (tabId : String)
    (h : ¬ m.tabs.length ≤ 1) :
    (closeTab m tabId).tabs = m.tabs.filter (fun t => t.id != tabId) := by
  unfold closeTab
  rw [if_neg h]
  by_cases hact : m.activeTabId = tabId
  · rw [if_pos hact]
    rcases hidx : m.tabs.findIdx? (fun t => t.id == tabId) with _ | n <;> simp [hidx]
    · rcases hc : m.tabs[0]? with _ | t <;> simp [hc]
    · rcases hc : (if n = 0 then none else m.tabs[n - 1]?).orElse (fun _ => m.tabs[n + 1]?)
        with _ | t <;> simp [hc]
  · rw [if_neg hact]

/-- Claim C6: the tab collection is never emptied — closing with a single
tab left is a no-op, closing any tab from a duplicate-free collection
leaves at least one tab, and closing the active tab selects the
neighbor preceding it in the pre-removal order when one exists,
otherwise the following one. -/
theorem closeTab_spec :
    (∀ (m : TabCollectionState) (tabId : String),
      m.tabs.length = 1 → closeTab m tabId = m) ∧
    (∀ (m : TabCollectionState) (tabId : String),
      (m.tabs.map TabEntry.id).Nodup → m.tabs ≠ [] → (closeTab m tabId).tabs ≠ []) ∧
    (∀ (m : TabCollectionState) (tabId : String) (n : Nat),
      2 ≤ m.tabs.length → m.activeTabId = tabId →
      m.tabs.findIdx? (fun t => t.id == tabId) = some n → n < m.tabs.length →
      (closeTab m tabId).activeTabId =
        if n = 0 then ((m.tabs[1]?).map TabEntry.id).getD m.activeTabId
        else ((m.tabs[n - 1]?).map TabEntry.id).getD m.activeTabId) := by
  refine ⟨?_, ?_, ?_⟩
  · intro m tabId h
    unfold closeTab
    rw [if_pos (by omega)]
  · intro m tabId hnd hne
    by_cases hlen : m.tabs.length ≤ 1
    · unfold closeTab
      rw [if_pos hlen]
      exact hne
    · rw [closeTab_tabs_eq m tabId hlen]
      have hge := filter_length_ge_of_nodup m.tabs tabId hnd
      have : 0 < (m.tabs.filter (fun t => t.id != tabId)).length := by omega
      exact List.ne_nil_of_length_pos this
  · intro m tabId n hlen hact hidx hn
    unfold closeTab
    rw [if_neg (by omega), if_pos hact, hidx]
    by_cases hn0 : n = 0
    · subst hn0
      obtain ⟨t, ht⟩ : ∃ t, m.tabs[1]? = some t :=
        ⟨m.tabs[1], List.getElem?_eq_getElem (by omega)⟩
      simp [ht]
    · obtain ⟨t, ht⟩ : ∃ t, m.tabs[n - 1]? = some t :=
        ⟨m.tabs[n - 1], List.getElem?_eq_getElem (by omega)⟩
      simp [hn0, ht, Option.orElse]

/-- Witness for claim C6 at concrete collections: the single-tab no-op,
the not-emptied invariant, and the preceding-neighbor selection. -/
theorem closeTab_spec_witness :
    closeTab ⟨[⟨"1", "Untitled"⟩], "1"⟩ "1" = ⟨[⟨"1", "Untitled"⟩], "1"⟩ ∧
    (closeTab ⟨[⟨"a", "A"⟩, ⟨"b", "B"⟩], "b"⟩ "b").tabs ≠ [] ∧
    (closeTab ⟨[⟨"a", "A"⟩, ⟨"b", "B"⟩, ⟨"c", "C"⟩], "b"⟩ "b").activeTabId = "a" := by
  refine ⟨closeTab_spec.1 _ "1" rfl,
    closeTab_spec.2.1 ⟨[⟨"a", "A"⟩, ⟨"b", "B"⟩], "b"⟩ "b" (by decide) (by decide), ?_⟩
  exact (closeTab_spec.2.2 ⟨[⟨"a", "A"⟩, ⟨"b", "B"⟩, ⟨"c", "C"⟩], "b"⟩ "b" 1 (by decide)
    rfl (by decide) (by decide)).trans (by decide)

/-- Claim C7: contrary to the claimed "loaded" guard, the tab manager's
save reaction fires already on mount — its guard compares the
string-typed `dockerPath` against `undefined`, which never holds, so a
`save_docker_path("")` of the default value is issued before the
initial `load_docker_path` read can resolve (the code's own comment
says this save was meant to be skipped). -/
theorem savePath_fires_before_load :
    mountDockerPathEffects = [Effect.loadDockerPath, Effect.saveDockerPath ""] ∧
    initialDockerPathValue ≠ none := by
  refine ⟨by decide, by decide⟩

end SWEDebug
